import Mathlib

/-!
Shallow embedding of the chat/file-transfer message exchange of
`src/main.py` (class `ProfessionalChatApp`): the WebSocket frame
dispatcher `handle_client`, the scripted streamer `stream_bot_response`,
the chat-log appenders, the workspace writer `save_uploaded_file`, the
direct upload handler `handle_file_upload`, and the `generate_thumbnail`
stub.  Filesystem effects are embedded as an explicit trace of
operations; emitted WebSocket frames as a list of `OutFrame`.
-/

namespace LMSCopilot

/-- One entry of the chat log: mirrors the Python dicts
`\x7b"role": ..., "content": ...\x7d` appended to `self.messages`. -/
structure ChatMessage where
  role : String
  content : String
deriving DecidableEq, Repr

/-- The fields of an item of a `media` list, as read by
`save_uploaded_file` via `file_data.get(...)`.  `none` models an absent
JSON key. -/
structure FileData where
  name? : Option String
  content? : Option String
  type? : Option String
deriving DecidableEq, Repr

/-- An inbound JSON frame, restricted to the keys `handle_client`
reads: `type`, `content`, `media`, `filePath`, `name`.  `none` models an
absent key. -/
structure Frame where
  type? : Option String
  content? : Option String
  media? : Option (List FileData)
  filePath? : Option String
  name? : Option String
deriving DecidableEq, Repr

/-- Filesystem effects performed by the handlers, in order:
`os.makedirs(dir, exist_ok=True)` and `open(path, "w").write(content)`. -/
inductive FsOp where
  | makedirs (dir : String)
  | write (path : String) (content : String)
deriving DecidableEq, Repr

/-- Frames the handler sends back over the socket (`websocket.send` of a
JSON object).  The thumbnail payload is kept as an association list so
that its field names are part of the model. -/
inductive OutFrame where
  | responseChunk (content : String)
  | responseEnd (content : String)
  | thumbnailResponse (data : List (String × String)) (filePath : String)
deriving DecidableEq, Repr

/-- `s.startswith(pre)`, computed on the underlying character lists so
that it reduces in the kernel. -/
def startsWithStr (s pre : String) : Bool :=
  pre.data.isPrefixOf s.data

/-- `s.endswith(suf)`, computed on the underlying character lists. -/
def endsWithStr (s suf : String) : Bool :=
  suf.data.reverse.isPrefixOf s.data.reverse

/-- `os.path.join(a, b)` for the shapes used here: an absolute `b`
replaces `a`; otherwise the parts are glued with a single slash. -/
def joinPath (a b : String) : String :=
  if startsWithStr b "/" then b
  else if a = "" then b
  else if endsWithStr a "/" then a ++ b
  else a ++ "/" ++ b

/-- `os.path.dirname(p)`: the part before the last slash, with trailing
slashes stripped unless the head consists only of slashes. -/
def dirname (p : String) : String :=
  if p.data.contains '/' then
    let head := String.mk ((p.data.reverse.dropWhile (fun c => c ≠ '/')).reverse)
    let stripped := String.mk ((head.data.reverse.dropWhile (fun c => c = '/')).reverse)
    if stripped = "" then head else stripped
  else ""

/-- Split a character list at every slash. -/
def splitSlash : List Char → List (List Char)
  | [] => [[]]
  | c :: cs =>
    if c = '/' then [] :: splitSlash cs
    else
      match splitSlash cs with
      | [] => [[c]]
      | g :: gs => (c :: g) :: gs

/-- `pathlib.Path(p).name`: the last path component, after dropping
empty components and `.` components. -/
def pathName (p : String) : String :=
  ((((splitSlash p.data).map String.mk).filter
      (fun c => c ≠ "" ∧ c ≠ ".")).getLast?).getD ""

/-- The fixed workspace root `self.workspace_root`. -/
def workspace_root : String := "./workspace"

/-- `generate_thumbnail` (src/main.py:305-311): a pure placeholder record
derived from the base name of the path; field names as in the source. -/
def generate_thumbnail (file_path : String) : List (String × String) :=
  [("thumbnail_url", "/thumbnails/" ++ pathName file_path ++ ".thumb"),
   ("size", "100x100")]

/-- The list `response_chunks` of `stream_bot_response`
(src/main.py:193-199), verbatim. -/
def response_chunks : List String :=
  ["Processing your request...",
   "\nAnalyzing code structure...",
   "\nGenerating solution...",
   "\nHere\x27s the complete implementation:\n\n```python\n",
   "def example_function():\n    # Your code here\n    pass\n\n# Additional code\nprint(\x27Hello World\x27)\n```"]

/-- `stream_bot_response` (src/main.py:187-212): sends every chunk as a
`response_chunk` frame, then one `response_end` frame with empty
content.  The user message is received but never used. -/
def stream_bot_response (user_message : String) : List OutFrame :=
  response_chunks.map (fun chunk => OutFrame.responseChunk chunk)
    ++ [OutFrame.responseEnd ""]

/-- `add_user_message` (src/main.py:214-219), restricted to its effect
on `self.messages` (the widget insert is presentation only). -/
def add_user_message (messages : List ChatMessage) (message : String) :
    List ChatMessage :=
  messages ++ [{ role := "user", content := message }]

/-- `add_bot_message` (src/main.py:221-226), effect on `self.messages`. -/
def add_bot_message (messages : List ChatMessage) (message : String) :
    List ChatMessage :=
  messages ++ [{ role := "assistant", content := message }]

/-- `add_system_message` (src/main.py:228-233), effect on
`self.messages`. -/
def add_system_message (messages : List ChatMessage) (message : String) :
    List ChatMessage :=
  messages ++ [{ role := "system", content := message }]

/-- `save_uploaded_file` (src/main.py:276-293): route image-typed
content to the `media` subdirectory, make parent directories, write. -/
def save_uploaded_file (file_data : FileData) : List FsOp :=
  let filename := file_data.name?.getD "unknown"
  let content := file_data.content?.getD ""
  let file_type := file_data.type?.getD "text/plain"
  let file_path :=
    if startsWithStr file_type "image" then
      joinPath (joinPath workspace_root "media") filename
    else
      joinPath workspace_root filename
  [FsOp.makedirs (dirname file_path), FsOp.write file_path content]

/-- `handle_file_upload` (src/main.py:295-303): write the content
directly under the workspace root; no directory creation, no media
routing. -/
def handle_file_upload (data : Frame) : List FsOp :=
  let file_content := data.content?.getD ""
  let file_name := data.name?.getD "file"
  let save_path := joinPath workspace_root file_name
  [FsOp.write save_path file_content]

/-- The dispatch of one inbound frame in `handle_client`
(src/main.py:137-169): given the frame and the current chat log, return
the new chat log, the filesystem operations performed, and the frames
sent back, mirroring the `if/elif/elif` chain on `data["type"]`. -/
def handle_frame (data : Frame) (messages : List ChatMessage) :
    List ChatMessage × List FsOp × List OutFrame :=
  if data.type? = some "message" then
    let user_message := data.content?.getD ""
    let messages := add_user_message messages user_message
    let fsOps :=
      match data.media? with
      | some files => (files.map save_uploaded_file).flatten
      | none => []
    (messages, fsOps, stream_bot_response user_message)
  else if data.type? = some "file_upload" then
    (messages, handle_file_upload data, [])
  else if data.type? = some "thumbnail_request" then
    let file_path := data.filePath?.getD ""
    let thumbnail_data := generate_thumbnail file_path
    (messages, [], [OutFrame.thumbnailResponse thumbnail_data file_path])
  else
    (messages, [], [])

/-- Apply one filesystem operation to a name-to-content map (newest
binding first); `open(path, "w")` truncates, so a write replaces any
previous binding for the same path. -/
def applyOp (fs : List (String × String)) : FsOp → List (String × String)
  | FsOp.makedirs _ => fs
  | FsOp.write p c => (p, c) :: fs.filter (fun e => e.1 ≠ p)

/-- Apply a trace of filesystem operations in order. -/
def applyOps (fs : List (String × String)) (ops : List FsOp) :
    List (String × String) :=
  ops.foldl applyOp fs

/-- Content of the file at `p`, if any. -/
def readFile (fs : List (String × String)) (p : String) : Option String :=
  (fs.find? (fun e => e.1 = p)).map (fun e => e.2)

/-- The scripted output of `stream_bot_response`: every chunk as a
`response_chunk` frame, then `response_end` with empty content. -/
def scripted_frames : List OutFrame :=
  response_chunks.map (fun chunk => OutFrame.responseChunk chunk)
    ++ [OutFrame.responseEnd ""]

/-- Reading back a path just written returns the written content. -/
theorem readFile_applyOp_write (fs : List (String × String)) (p c : String) :
    readFile (applyOp fs (FsOp.write p c)) p = some c := by
  simp [readFile, applyOp, List.find?]

/-- A `file_upload` frame leaves the chat log alone, performs exactly
the operations of `handle_file_upload`, and emits nothing. -/
theorem handle_frame_file_upload (f : Frame) (msgs : List ChatMessage)
    (h : f.type? = some "file_upload") :
    handle_frame f msgs = (msgs, handle_file_upload f, []) := by
  simp [handle_frame, h]

/-- C1: every inbound frame of type `message` makes the handler emit
exactly the five fixed `response_chunk` frames, in order, followed by
exactly one `response_end` frame with empty content; the emitted
sequence is independent of the input text (the right-hand side is a
constant). -/
theorem C1_message_emits_fixed_stream (f : Frame) (msgs : List ChatMessage)
    (h : f.type? = some "message") :
    (handle_frame f msgs).2.2 =
      [OutFrame.responseChunk "Processing your request...",
       OutFrame.responseChunk "\nAnalyzing code structure...",
       OutFrame.responseChunk "\nGenerating solution...",
       OutFrame.responseChunk "\nHere\x27s the complete implementation:\n\n```python\n",
       OutFrame.responseChunk "def example_function():\n    # Your code here\n    pass\n\n# Additional code\nprint(\x27Hello World\x27)\n```",
       OutFrame.responseEnd ""] := by
  simp [handle_frame, h, stream_bot_response, response_chunks]

/-- C1 witness: the theorem applied to a concrete `message` frame. -/
theorem C1_witness :
    ((⟨some "message", some "refactor this", none, none, none⟩ : Frame).type?
        = some "message")
    ∧ (handle_frame ⟨some "message", some "refactor this", none, none, none⟩ []).2.2 =
      [OutFrame.responseChunk "Processing your request...",
       OutFrame.responseChunk "\nAnalyzing code structure...",
       OutFrame.responseChunk "\nGenerating solution...",
       OutFrame.responseChunk "\nHere\x27s the complete implementation:\n\n```python\n",
       OutFrame.responseChunk "def example_function():\n    # Your code here\n    pass\n\n# Additional code\nprint(\x27Hello World\x27)\n```",
       OutFrame.responseEnd ""] :=
  ⟨rfl, C1_message_emits_fixed_stream _ _ rfl⟩

/-- C2 counterexample: a `file_upload` frame with name `x.png` and
content `c` produces a single bare write directly under the root, with
no directory-creation operation, and in particular does not equal the
operation trace the Workspace Writer (`save_uploaded_file`) would
produce for the same payload. -/
theorem C2_counterexample :
    (handle_frame ⟨some "file_upload", some "c", none, none, some "x.png"⟩ []).2.1
        = [FsOp.write "./workspace/x.png" "c"]
    ∧ (handle_frame ⟨some "file_upload", some "c", none, none, some "x.png"⟩ []).2.1
        ≠ save_uploaded_file ⟨some "x.png", some "c", some "text/plain"⟩
    ∧ (handle_frame ⟨some "file_upload", some "c", none, none, some "x.png"⟩ []).2.1
        ≠ save_uploaded_file ⟨some "x.png", some "c", some "image/png"⟩ := by
  decide

/-- C2 amended: a `file_upload` frame writes its content (default `""`)
directly at `<root>/<name>` (name defaulting to `file`), with no media
routing and no parent-directory creation; the write overwrites any
existing file at that path; no acknowledgment frame is emitted and the
chat log is untouched. -/
theorem C2_file_upload_direct_write (f : Frame) (msgs : List ChatMessage)
    (h : f.type? = some "file_upload") :
    handle_frame f msgs =
      (msgs,
       [FsOp.write (joinPath workspace_root (f.name?.getD "file"))
          (f.content?.getD "")],
       [])
    ∧ ∀ fs, readFile (applyOps fs (handle_frame f msgs).2.1)
          (joinPath workspace_root (f.name?.getD "file"))
        = some (f.content?.getD "") := by
  have hh := handle_frame_file_upload f msgs h
  constructor
  · rw [hh]
    rfl
  · intro fs
    rw [hh]
    exact readFile_applyOp_write fs _ _

/-- C2 amended witness: the theorem applied to a concrete `file_upload`
frame. -/
theorem C2_witness :
    ((⟨some "file_upload", some "hi", none, none, some "a.txt"⟩ : Frame).type?
        = some "file_upload")
    ∧ (handle_frame ⟨some "file_upload", some "hi", none, none, some "a.txt"⟩ [] =
        ([], [FsOp.write (joinPath workspace_root "a.txt") "hi"], [])
      ∧ ∀ fs, readFile
            (applyOps fs
              (handle_frame ⟨some "file_upload", some "hi", none, none,
                  some "a.txt"⟩ []).2.1)
            (joinPath workspace_root "a.txt")
          = some "hi") :=
  ⟨rfl, C2_file_upload_direct_write _ _ rfl⟩

/-- C3 counterexample: the thumbnail record for `/tmp/foo.jpg` has no
field named `thumbnailUrl`; its first field is named `thumbnail_url`. -/
theorem C3_counterexample :
    List.lookup "thumbnailUrl" (generate_thumbnail "/tmp/foo.jpg") = none
    ∧ generate_thumbnail "/tmp/foo.jpg"
        = [("thumbnail_url", "/thumbnails/foo.jpg.thumb"), ("size", "100x100")] := by
  decide

/-- C3 amended: for input path `/tmp/foo.jpg` the Thumbnail Stub returns
exactly the record with field `thumbnail_url` equal to
`/thumbnails/foo.jpg.thumb` and field `size` equal to `100x100`; being
equal to a fixed constant, repeated calls return the same record. -/
theorem C3_thumbnail_record_snake_case :
    generate_thumbnail "/tmp/foo.jpg"
      = [("thumbnail_url", "/thumbnails/foo.jpg.thumb"), ("size", "100x100")] := by
  decide

/-- C4: the Workspace Writer on `\x7bname: a.txt, content: hi, type:
text/plain\x7d` yields a file at `<root>/a.txt` whose content is exactly
`hi`, and on `\x7bname: x.png, content: c, type: image/png\x7d` (any `c`)
writes the file at `<root>/media/x.png`. -/
theorem C4_workspace_writer_paths :
    (∀ fs, readFile
        (applyOps fs (save_uploaded_file ⟨some "a.txt", some "hi", some "text/plain"⟩))
        "./workspace/a.txt" = some "hi")
    ∧ (∀ c, save_uploaded_file ⟨some "x.png", some c, some "image/png"⟩
        = [FsOp.makedirs "./workspace/media",
           FsOp.write "./workspace/media/x.png" c])
    ∧ ∀ c fs, readFile
        (applyOps fs (save_uploaded_file ⟨some "x.png", some c, some "image/png"⟩))
        "./workspace/media/x.png" = some c := by
  refine ⟨fun fs => ?_, fun c => rfl, fun c fs => ?_⟩
  · exact readFile_applyOp_write fs _ _
  · exact readFile_applyOp_write fs _ _

/-- C5: an inbound frame whose `type` is absent or not one of `message`,
`file_upload`, `thumbnail_request` leaves the chat log unchanged,
performs no filesystem operation, and emits no frame of any kind. -/
theorem C5_unknown_type_no_effects (f : Frame) (msgs : List ChatMessage)
    (h1 : f.type? ≠ some "message")
    (h2 : f.type? ≠ some "file_upload")
    (h3 : f.type? ≠ some "thumbnail_request") :
    handle_frame f msgs = (msgs, [], []) := by
  unfold handle_frame
  rw [if_neg h1, if_neg h2, if_neg h3]

/-- C5 witness: the theorem applied to a frame with an unknown type and
to a frame with no type. -/
theorem C5_witness :
    ((⟨some "ping", some "x", none, none, none⟩ : Frame).type? ≠ some "message")
    ∧ (handle_frame ⟨some "ping", some "x", none, none, none⟩
          [⟨"user", "old"⟩] = ([⟨"user", "old"⟩], [], [])
      ∧ handle_frame ⟨none, some "x", none, none, none⟩ [] = ([], [], [])) :=
  ⟨by decide,
   C5_unknown_type_no_effects _ _ (by decide) (by decide) (by decide),
   C5_unknown_type_no_effects _ _ (by decide) (by decide) (by decide)⟩

/-- C6: the Thumbnail Stub is a pure function of the base name of its
input path: any two paths with the same base name yield identical
records. -/
theorem C6_thumbnail_pure_of_basename (p1 p2 : String)
    (h : pathName p1 = pathName p2) :
    generate_thumbnail p1 = generate_thumbnail p2 := by
  simp [generate_thumbnail, h]

/-- C6 witness: two different paths sharing the base name `foo.jpg` get
the same record. -/
theorem C6_witness :
    pathName "/tmp/foo.jpg" = pathName "/var/cache/foo.jpg"
    ∧ generate_thumbnail "/tmp/foo.jpg" = generate_thumbnail "/var/cache/foo.jpg" :=
  ⟨by decide, C6_thumbnail_pure_of_basename _ _ (by decide)⟩

/-- C7: each chat-log operation appends exactly one entry, with role
`user`, `assistant` or `system` respectively, at the end of the list,
leaving every existing entry in place and in order. -/
theorem C7_chat_log_append_only (msgs : List ChatMessage) (m : String) :
    add_user_message msgs m = msgs ++ [⟨"user", m⟩]
    ∧ add_bot_message msgs m = msgs ++ [⟨"assistant", m⟩]
    ∧ add_system_message msgs m = msgs ++ [⟨"system", m⟩] :=
  ⟨rfl, rfl, rfl⟩

/-- C8: two sequential `message` frames each independently emit the full
fixed scripted sequence; the second response is the same constant even
though it runs on the state left by the first. -/
theorem C8_messages_stateless (f1 f2 : Frame) (msgs : List ChatMessage)
    (h1 : f1.type? = some "message") (h2 : f2.type? = some "message") :
    (handle_frame f1 msgs).2.2 = scripted_frames
    ∧ (handle_frame f2 (handle_frame f1 msgs).1).2.2 = scripted_frames := by
  constructor
  · simp [handle_frame, h1, stream_bot_response, scripted_frames]
  · simp [handle_frame, h2, stream_bot_response, scripted_frames]

/-- C8 witness: two concrete `message` frames in sequence. -/
theorem C8_witness :
    ((⟨some "message", some "first", none, none, none⟩ : Frame).type? = some "message")
    ∧ ((handle_frame ⟨some "message", some "first", none, none, none⟩ []).2.2
          = scripted_frames
      ∧ (handle_frame ⟨some "message", some "second", none, none, none⟩
            (handle_frame ⟨some "message", some "first", none, none, none⟩ []).1).2.2
           = scripted_frames) :=
  ⟨rfl, C8_messages_stateless _ _ _ rfl rfl⟩

/-- C9: a `message` frame with no `content` field is processed with the
empty string: the handler appends a user entry with content `""` and
still emits the full scripted response. -/
theorem C9_missing_content_defaults_empty (f : Frame) (msgs : List ChatMessage)
    (h : f.type? = some "message") (hc : f.content? = none) :
    (handle_frame f msgs).1 = msgs ++ [⟨"user", ""⟩]
    ∧ (handle_frame f msgs).2.2 = scripted_frames := by
  constructor
  · simp [handle_frame, h, hc, add_user_message]
  · simp [handle_frame, h, stream_bot_response, scripted_frames]

/-- C9 witness: a concrete `message` frame with no content field. -/
theorem C9_witness :
    ((⟨some "message", none, none, none, none⟩ : Frame).type? = some "message")
    ∧ ((handle_frame ⟨some "message", none, none, none, none⟩ []).1
          = [] ++ [⟨"user", ""⟩]
      ∧ (handle_frame ⟨some "message", none, none, none, none⟩ []).2.2
          = scripted_frames) :=
  ⟨rfl, C9_missing_content_defaults_empty _ _ rfl rfl⟩

/-- C10: a `thumbnail_request` frame with no `filePath` field still gets
exactly one `thumbnail_response` frame, carrying `filePath` `""` and the
record with URL field `/thumbnails/.thumb` and size `100x100`; the chat
log is untouched and no file is written. -/
theorem C10_missing_filepath_thumbnail (f : Frame) (msgs : List ChatMessage)
    (h : f.type? = some "thumbnail_request") (hfp : f.filePath? = none) :
    handle_frame f msgs =
      (msgs, [],
       [OutFrame.thumbnailResponse
          [("thumbnail_url", "/thumbnails/.thumb"), ("size", "100x100")] ""]) := by
  simp [handle_frame, h, hfp, generate_thumbnail, pathName, splitSlash]

/-- C10 witness: a concrete `thumbnail_request` frame with no filePath
field. -/
theorem C10_witness :
    ((⟨some "thumbnail_request", none, none, none, none⟩ : Frame).type?
        = some "thumbnail_request")
    ∧ handle_frame ⟨some "thumbnail_request", none, none, none, none⟩ [] =
        ([], [],
         [OutFrame.thumbnailResponse
            [("thumbnail_url", "/thumbnails/.thumb"), ("size", "100x100")] ""]) :=
  ⟨rfl, C10_missing_filepath_thumbnail _ _ rfl rfl⟩

end LMSCopilot
